import Mathlib

/-!
Shallow embedding of `src/disk/format.rs` (lsmlib): the on-disk entry format
of a Bitcask-style log-structured key-value store.  Byte sequences are
`List Nat` with each element a byte value; fixed-width machine integers are
`Nat` with explicit reduction modulo `2^32` / `2^64` where the Rust code
truncates.  A seekable stream (`std::io::Cursor` over a byte vector in the
code's tests) is a `Cursor` structure: byte list plus read/write position.
Fallible IO is `Except IOErr`.
-/

/-- Little-endian byte encoding of the low 32 bits of `n`, as in Rust's
`u32::to_le_bytes` (the reduction modulo `2^32` also absorbs every `as u32`
cast at call sites, since only the low 32 bits reach the four bytes). -/
def u32ToLe (n : Nat) : List Nat :=
  [n % 256, n / 256 % 256, n / 65536 % 256, n / 16777216 % 256]

/-- Little-endian byte encoding of the low 64 bits of `n`, as in Rust's
`u64::to_le_bytes`. -/
def u64ToLe (n : Nat) : List Nat :=
  [n % 256, n / 256 % 256, n / 65536 % 256, n / 16777216 % 256,
   n / 4294967296 % 256, n / 1099511627776 % 256,
   n / 281474976710656 % 256, n / 72057594037927936 % 256]

/-- Little-endian decoding of a byte list, as in Rust's
`u32::from_le_bytes` / `u64::from_le_bytes` applied to a 4- or 8-byte slice. -/
def leToNat (bs : List Nat) : Nat := bs.foldr (fun b acc => b + 256 * acc) 0

/-- `pub const HEADER_SIZE: usize = 16`. -/
def HEADER_SIZE : Nat := 16

/-- `pub const HINT_HEADER_SIZE: usize = 20`. -/
def HINT_HEADER_SIZE : Nat := 20

/-- `pub struct Header([u8; HEADER_SIZE])`: the 16-byte data-entry header. -/
structure Header where
  buf : List Nat
deriving DecidableEq

/-- `Header::new(crc, timestamp, key_sz, value_sz)`: serialises the four
`u32` fields little-endian at byte ranges 0..4, 4..8, 8..12, 12..16. -/
def Header.new (crc timestamp key_sz value_sz : Nat) : Header :=
  ⟨u32ToLe crc ++ u32ToLe timestamp ++ u32ToLe key_sz ++ u32ToLe value_sz⟩

/-- `Header::crc`: `u32::from_le_bytes(self.0[0..4])`. -/
def Header.crc (h : Header) : Nat := leToNat ((h.buf.drop 0).take 4)

/-- `Header::timestamp`: `u32::from_le_bytes(self.0[4..8])`. -/
def Header.timestamp (h : Header) : Nat := leToNat ((h.buf.drop 4).take 4)

/-- `Header::key_sz`: `u32::from_le_bytes(self.0[8..12])`. -/
def Header.key_sz (h : Header) : Nat := leToNat ((h.buf.drop 8).take 4)

/-- `Header::value_sz`: `u32::from_le_bytes(self.0[12..16])`. -/
def Header.value_sz (h : Header) : Nat := leToNat ((h.buf.drop 12).take 4)

/-- Modelled from the spec: the checksum collaborator `crate::disk::crc::hash`
(the `crc` module is not part of the examined source).  The spec fixes only
its interface: a deterministic function over the key and value bytes
producing a 32-bit integrity code, sensitive to byte differences.  This
model is a deterministic 32-bit polynomial fold over `key ++ value`. -/
def crcHash (key value : List Nat) : Nat :=
  ((key ++ value).foldl (fun h b => h * 131 + b + 1) 5381) % 4294967296

/-- `pub struct DiskEntry`: header, key bytes, value bytes, optional
placement offset and optional owning file id. -/
structure DiskEntry where
  header : Header
  key : List Nat
  value : List Nat
  offset : Option Nat
  file_id : Option Nat
deriving DecidableEq

/-- `DiskEntry::new(key, value)`: computes `crc = hash(&key, &value)`,
stores the byte lengths as `u32` sizes, leaves `offset`/`file_id` unset.
The code samples the wall clock (`chrono::Utc::now().timestamp()`,
converted to `u32`); that external input is the explicit `timestamp`
argument here. -/
def DiskEntry.new (key value : List Nat) (timestamp : Nat) : DiskEntry :=
  let crc := crcHash key value
  let key_sz := key.length
  let value_sz := value.length
  { header := Header.new crc timestamp key_sz value_sz
    key := key
    value := value
    offset := none
    file_id := none }

/-- `DiskEntry::crc`: the stored checksum from the header. -/
def DiskEntry.crc (e : DiskEntry) : Nat := e.header.crc

/-- `DiskEntry::timestamp`. -/
def DiskEntry.timestamp (e : DiskEntry) : Nat := e.header.timestamp

/-- `DiskEntry::size`: `HEADER_SIZE + key.len() + value.len()`. -/
def DiskEntry.size (e : DiskEntry) : Nat :=
  HEADER_SIZE + e.key.length + e.value.length

/-- `DiskEntry::is_validate`: stored crc versus recomputed checksum. -/
def DiskEntry.is_validate (e : DiskEntry) : Bool :=
  e.header.crc == crcHash e.key e.value

/-- `DiskEntry::crc_expected`. -/
def DiskEntry.crc_expected (e : DiskEntry) : Nat := e.header.crc

/-- `DiskEntry::crc_actual`. -/
def DiskEntry.crc_actual (e : DiskEntry) : Nat := crcHash e.key e.value

/-- A seekable byte stream with an explicit cursor position, as
`std::io::Cursor<&mut Vec<u8>>` in the code's tests. -/
structure Cursor where
  data : List Nat
  pos : Nat
deriving DecidableEq

/-- `Seek::seek(SeekFrom::Start(offset))`. -/
def Cursor.seek (s : Cursor) (offset : Nat) : Cursor := { s with pos := offset }

/-- One `Read::read` call into a buffer of capacity `n`: copies
`min n (remaining)` bytes from the current position and advances by the
number of bytes obtained (zero at or past end of data). -/
def Cursor.readUpTo (s : Cursor) (n : Nat) : List Nat × Cursor :=
  let got := (s.data.drop s.pos).take n
  (got, { s with pos := s.pos + got.length })

/-- IO failure: `read_exact` signals `ErrorKind::UnexpectedEof` when fewer
bytes remain than requested. -/
inductive IOErr where
  | unexpectedEof
deriving DecidableEq

/-- `Read::read_exact` for `n` bytes: errors when fewer than `n` bytes
remain, otherwise yields exactly `n` bytes and advances by `n`. -/
def Cursor.readExact (s : Cursor) (n : Nat) : Except IOErr (List Nat × Cursor) :=
  if s.data.length - s.pos < n then .error .unexpectedEof
  else .ok ((s.data.drop s.pos).take n, { s with pos := s.pos + n })

/-- `Write::write_all` on a cursor over a byte vector: overwrites in place
and extends at the end; a position past the end is zero-padded first.
The position advances by the number of bytes written. -/
def Cursor.writeAll (s : Cursor) (bs : List Nat) : Cursor :=
  if s.pos ≤ s.data.length then
    { data := s.data.take s.pos ++ bs ++ s.data.drop (s.pos + bs.length)
      pos := s.pos + bs.length }
  else
    { data := s.data ++ List.replicate (s.pos - s.data.length) 0 ++ bs
      pos := s.pos + bs.length }

/-- `<DiskEntry as EntryIO>::read_from(r, offset)`: seek to `offset`, one
`read` call into a zeroed 16-byte buffer (returning `None` when it obtains
zero bytes, and otherwise decoding the partially filled, zero-padded
buffer), then `read_exact` for the declared key and value sizes. -/
def DiskEntry.read_from (r : Cursor) (offset : Nat) :
    Except IOErr (Option DiskEntry) :=
  let r := r.seek offset
  let (raw, r) := r.readUpTo HEADER_SIZE
  if raw.length = 0 then .ok none
  else
    let header : Header := ⟨raw ++ List.replicate (HEADER_SIZE - raw.length) 0⟩
    match r.readExact header.key_sz with
    | .error e => .error e
    | .ok (key, r) =>
      match r.readExact header.value_sz with
      | .error e => .error e
      | .ok (value, _) =>
        .ok (some { header := header, key := key, value := value,
                    offset := none, file_id := none })

/-- `<DiskEntry as EntryIO>::write_to(w)`: records the stream position,
writes header bytes, key bytes, value bytes, and returns the recorded
starting offset together with the written stream. -/
def DiskEntry.write_to (e : DiskEntry) (w : Cursor) : Nat × Cursor :=
  let offset := w.pos
  let w := w.writeAll e.header.buf
  let w := w.writeAll e.key
  let w := w.writeAll e.value
  (offset, w)

/-- `pub struct HintHeader([u8; HINT_HEADER_SIZE])`: the 20-byte hint-entry
header. -/
structure HintHeader where
  buf : List Nat
deriving DecidableEq

/-- `HintHeader::new(offset, key_sz, value_sz, timestamp)`: serialises
`offset` as a little-endian `u64` at bytes 0..8 and the three `u32` fields
at bytes 8..12, 12..16, 16..20. -/
def HintHeader.new (offset key_sz value_sz timestamp : Nat) : HintHeader :=
  ⟨u64ToLe offset ++ u32ToLe key_sz ++ u32ToLe value_sz ++ u32ToLe timestamp⟩

/-- `HintHeader::offset`: `u64::from_le_bytes(self.0[0..8])`. -/
def HintHeader.offset (h : HintHeader) : Nat := leToNat ((h.buf.drop 0).take 8)

/-- `HintHeader::key_sz`: `u32::from_le_bytes(self.0[8..12])`. -/
def HintHeader.key_sz (h : HintHeader) : Nat := leToNat ((h.buf.drop 8).take 4)

/-- `HintHeader::value_sz`: `u32::from_le_bytes(self.0[12..16])`. -/
def HintHeader.value_sz (h : HintHeader) : Nat := leToNat ((h.buf.drop 12).take 4)

/-- `HintHeader::timestamp`: `u32::from_le_bytes(self.0[16..20])`. -/
def HintHeader.timestamp (h : HintHeader) : Nat := leToNat ((h.buf.drop 16).take 4)

/-- `pub struct HintEntry`: hint header, key bytes, optional file id. -/
structure HintEntry where
  header : HintHeader
  key : List Nat
  file_id : Option Nat
deriving DecidableEq

/-- Reduction of an integer into the `u32` range, used to model Rust's
wrapping (release-mode) unsigned subtraction. -/
def wrap32 (n : Int) : Nat := (n % 4294967296).toNat

/-- `HintEntry::new(key, offset, size, timestamp)`: `key_sz = key.len() as
u32` and `value_sz = size as u32 - HEADER_SIZE as u32 - key_sz`, an
unchecked `u32` subtraction that wraps modulo `2^32` when
`size < HEADER_SIZE + key.len()` (release-mode Rust semantics; no error
path exists in the signature). -/
def HintEntry.new (key : List Nat) (offset size timestamp : Nat) : HintEntry :=
  let key_sz := key.length % 4294967296
  let value_sz := wrap32 ((size % 4294967296 : Nat) - (HEADER_SIZE : Int) - key_sz)
  { header := HintHeader.new offset key_sz value_sz timestamp
    key := key
    file_id := none }

/-- `HintEntry::offset`. -/
def HintEntry.offset (h : HintEntry) : Nat := h.header.offset

/-- `HintEntry::size`: `HEADER_SIZE + key_sz + value_sz`, the total size of
the corresponding data entry. -/
def HintEntry.size (h : HintEntry) : Nat :=
  HEADER_SIZE + h.header.key_sz + h.header.value_sz

/-- `HintEntry::timestamp`. -/
def HintEntry.timestamp (h : HintEntry) : Nat := h.header.timestamp

/-- `HintEntry::hint_size`: `HINT_HEADER_SIZE + key.len()`, the footprint
of the hint record itself. -/
def HintEntry.hint_size (h : HintEntry) : Nat :=
  HINT_HEADER_SIZE + h.key.length

/-- `HintEntry::key_sz`. -/
def HintEntry.key_sz (h : HintEntry) : Nat := h.header.key_sz

/-- `HintEntry::value_sz`. -/
def HintEntry.value_sz (h : HintEntry) : Nat := h.header.value_sz

/-- `impl From<&DiskEntry> for HintEntry`: builds the hint header from
`v.offset.unwrap()`, the key and value lengths as `u32`, and the data
entry's timestamp, copying key and file id.  The `unwrap` aborts the
process when `offset` is `None`; that panic path is modelled as `none`. -/
def HintEntry.ofDiskEntry (v : DiskEntry) : Option HintEntry :=
  match v.offset with
  | none => none
  | some off =>
    some { header := HintHeader.new off v.key.length v.value.length v.timestamp
           key := v.key
           file_id := v.file_id }

/-- `<HintEntry as EntryIO>::read_from(r, offset)`: seek, one `read` call
into a zeroed 20-byte buffer (`None` on zero bytes obtained, zero-padded
decode otherwise), then `read_exact` for the declared key size. -/
def HintEntry.read_from (r : Cursor) (offset : Nat) :
    Except IOErr (Option HintEntry) :=
  let r := r.seek offset
  let (raw, r) := r.readUpTo HINT_HEADER_SIZE
  if raw.length = 0 then .ok none
  else
    let header : HintHeader := ⟨raw ++ List.replicate (HINT_HEADER_SIZE - raw.length) 0⟩
    match r.readExact header.key_sz with
    | .error e => .error e
    | .ok (key, _) => .ok (some { header := header, key := key, file_id := none })

/-- `<HintEntry as EntryIO>::write_to(w)`: records the stream position,
writes the 20 header bytes then the key bytes, returns the offset. -/
def HintEntry.write_to (e : HintEntry) (w : Cursor) : Nat × Cursor :=
  let offset := w.pos
  let w := w.writeAll e.header.buf
  let w := w.writeAll e.key
  (offset, w)

/-- A concrete placed data entry used to instantiate the hint-derivation
contract on explicit input. -/
def sampleEntry : DiskEntry :=
  { header := Header.new 0 9 1 1, key := [7], value := [8],
    offset := some 42, file_id := some 3 }

example :
    (DiskEntry.new [104, 101, 108, 108, 111] [119, 111, 114, 108, 100] 7).is_validate
      = true := by decide

example :
    (let e := DiskEntry.new [104, 101, 108, 108, 111] [119, 111, 114, 108, 100] 7
     let p := e.write_to ⟨[], 0⟩
     DiskEntry.read_from p.2 p.1) =
    .ok (some (DiskEntry.new [104, 101, 108, 108, 111] [119, 111, 114, 108, 100] 7)) := by
  rfl

example : DiskEntry.read_from ⟨[1], 0⟩ 0 =
    .ok (some { header := ⟨[1, 0, 0, 0, 0, 0, 0, 0, 0, 0, 0, 0, 0, 0, 0, 0]⟩,
                key := [], value := [], offset := none, file_id := none }) := by
  rfl

example :
    (HintEntry.new [104, 101, 108, 108, 111] 0 100 0).key_sz = 5 ∧
    (HintEntry.new [104, 101, 108, 108, 111] 0 100 0).value_sz = 79 ∧
    (HintEntry.new [104, 101, 108, 108, 111] 0 100 0).size = 100 ∧
    (HintEntry.new [104, 101, 108, 108, 111] 0 100 0).hint_size = 25 := by
  refine ⟨?_, ?_, ?_, ?_⟩ <;> rfl

example :
    (let e := HintEntry.new [104, 101, 108, 108, 111] 0 100 0
     let p := e.write_to ⟨[], 0⟩
     HintEntry.read_from p.2 p.1) =
    .ok (some (HintEntry.new [104, 101, 108, 108, 111] 0 100 0)) := by
  rfl

example : (HintEntry.new [104, 101, 108, 108, 111] 0 10 0).value_sz = 4294967285 := by
  rfl

theorem header_buf_length (c t k v : Nat) : (Header.new c t k v).buf.length = 16 := rfl

theorem header_crc_new (c t k v : Nat) :
    (Header.new c t k v).crc = c % 4294967296 := by
  have h : (Header.new c t k v).crc =
      c % 256 + 256 * (c / 256 % 256 + 256 * (c / 65536 % 256 + 256 * (c / 16777216 % 256 + 256 * 0))) := rfl
  rw [h]; omega

theorem header_timestamp_new (c t k v : Nat) :
    (Header.new c t k v).timestamp = t % 4294967296 := by
  have h : (Header.new c t k v).timestamp =
      t % 256 + 256 * (t / 256 % 256 + 256 * (t / 65536 % 256 + 256 * (t / 16777216 % 256 + 256 * 0))) := rfl
  rw [h]; omega

theorem header_key_sz_new (c t k v : Nat) :
    (Header.new c t k v).key_sz = k % 4294967296 := by
  have h : (Header.new c t k v).key_sz =
      k % 256 + 256 * (k / 256 % 256 + 256 * (k / 65536 % 256 + 256 * (k / 16777216 % 256 + 256 * 0))) := rfl
  rw [h]; omega

theorem header_value_sz_new (c t k v : Nat) :
    (Header.new c t k v).value_sz = v % 4294967296 := by
  have h : (Header.new c t k v).value_sz =
      v % 256 + 256 * (v / 256 % 256 + 256 * (v / 65536 % 256 + 256 * (v / 16777216 % 256 + 256 * 0))) := rfl
  rw [h]; omega

theorem hint_header_buf_length (o k v t : Nat) : (HintHeader.new o k v t).buf.length = 20 := rfl

theorem hint_header_offset_new (o k v t : Nat) :
    (HintHeader.new o k v t).offset = o % 18446744073709551616 := by
  have h : (HintHeader.new o k v t).offset =
      o % 256 + 256 * (o / 256 % 256 + 256 * (o / 65536 % 256 + 256 * (o / 16777216 % 256 +
        256 * (o / 4294967296 % 256 + 256 * (o / 1099511627776 % 256 +
        256 * (o / 281474976710656 % 256 + 256 * (o / 72057594037927936 % 256 + 256 * 0))))))) := rfl
  rw [h]; omega

theorem hint_header_key_sz_new (o k v t : Nat) :
    (HintHeader.new o k v t).key_sz = k % 4294967296 := by
  have h : (HintHeader.new o k v t).key_sz =
      k % 256 + 256 * (k / 256 % 256 + 256 * (k / 65536 % 256 + 256 * (k / 16777216 % 256 + 256 * 0))) := rfl
  rw [h]; omega

theorem hint_header_value_sz_new (o k v t : Nat) :
    (HintHeader.new o k v t).value_sz = v % 4294967296 := by
  have h : (HintHeader.new o k v t).value_sz =
      v % 256 + 256 * (v / 256 % 256 + 256 * (v / 65536 % 256 + 256 * (v / 16777216 % 256 + 256 * 0))) := rfl
  rw [h]; omega

theorem hint_header_timestamp_new (o k v t : Nat) :
    (HintHeader.new o k v t).timestamp = t % 4294967296 := by
  have h : (HintHeader.new o k v t).timestamp =
      t % 256 + 256 * (t / 256 % 256 + 256 * (t / 65536 % 256 + 256 * (t / 16777216 % 256 + 256 * 0))) := rfl
  rw [h]; omega

theorem crcHash_lt (key value : List Nat) : crcHash key value < 4294967296 :=
  Nat.mod_lt _ (by norm_num)

theorem Cursor.eq_of (x y : Cursor) (h1 : x.data = y.data) (h2 : x.pos = y.pos) : x = y := by
  cases x; cases y; cases h1; cases h2; rfl

theorem Cursor.writeAll_pos (s : Cursor) (bs : List Nat) :
    (s.writeAll bs).pos = s.pos + bs.length := by
  unfold Cursor.writeAll; split <;> rfl

theorem Cursor.writeAll_data_of_le (s : Cursor) (bs : List Nat) (h : s.pos ≤ s.data.length) :
    (s.writeAll bs).data = s.data.take s.pos ++ bs ++ s.data.drop (s.pos + bs.length) := by
  unfold Cursor.writeAll; rw [if_pos h]

theorem Cursor.writeAll_data_of_gt (s : Cursor) (bs : List Nat) (h : ¬ s.pos ≤ s.data.length) :
    (s.writeAll bs).data = s.data ++ List.replicate (s.pos - s.data.length) 0 ++ bs := by
  unfold Cursor.writeAll; rw [if_neg h]

theorem Cursor.writeAll_drop (s : Cursor) (bs : List Nat) :
    (s.writeAll bs).data.drop s.pos = bs ++ s.data.drop (s.pos + bs.length) := by
  by_cases h : s.pos ≤ s.data.length
  · rw [Cursor.writeAll_data_of_le s bs h]
    have hlen : (s.data.take s.pos).length = s.pos := by
      simp [List.length_take]; omega
    rw [List.append_assoc, List.drop_left' hlen]
  · rw [Cursor.writeAll_data_of_gt s bs h]
    have hlen : (s.data ++ List.replicate (s.pos - s.data.length) 0).length = s.pos := by
      simp [List.length_append, List.length_replicate]; omega
    rw [List.drop_left' hlen]
    have hnil : s.data.drop (s.pos + bs.length) = [] := List.drop_eq_nil_of_le (by omega)
    rw [hnil, List.append_nil]

theorem Cursor.writeAll_writeAll (s : Cursor) (a b : List Nat) :
    (s.writeAll a).writeAll b = s.writeAll (a ++ b) := by
  by_cases h : s.pos ≤ s.data.length
  · have h1 := Cursor.writeAll_data_of_le s a h
    have hp1 := Cursor.writeAll_pos s a
    have hta : (s.data.take s.pos ++ a).length = s.pos + a.length := by
      simp [List.length_append, List.length_take]; omega
    have h2 : (s.writeAll a).pos ≤ (s.writeAll a).data.length := by
      rw [h1, hp1]; simp [List.length_append, List.length_take]; omega
    have h3 := Cursor.writeAll_data_of_le (s.writeAll a) b h2
    refine Cursor.eq_of _ _ ?_ ?_
    · rw [h3, hp1, h1, Cursor.writeAll_data_of_le s (a ++ b) h]
      rw [List.take_left' hta]
      rw [show s.pos + a.length + b.length = (s.pos + a.length) + b.length from rfl]
      rw [← List.drop_drop, List.drop_left' hta, List.drop_drop]
      simp [List.append_assoc, List.length_append, Nat.add_assoc]
    · rw [Cursor.writeAll_pos, hp1, Cursor.writeAll_pos]
      simp [List.length_append, Nat.add_assoc]
  · have h1 := Cursor.writeAll_data_of_gt s a h
    have hp1 := Cursor.writeAll_pos s a
    have hlen1 : (s.writeAll a).data.length = s.pos + a.length := by
      rw [h1]; simp [List.length_append, List.length_replicate]; omega
    have h2 : (s.writeAll a).pos ≤ (s.writeAll a).data.length := by
      rw [hp1, hlen1]
    have h3 := Cursor.writeAll_data_of_le (s.writeAll a) b h2
    refine Cursor.eq_of _ _ ?_ ?_
    · rw [h3, hp1, Cursor.writeAll_data_of_gt s (a ++ b) h]
      have htake : (s.writeAll a).data.take (s.pos + a.length) = (s.writeAll a).data := by
        rw [← hlen1, List.take_length]
      have hdrop : (s.writeAll a).data.drop (s.pos + a.length + b.length) = [] :=
        List.drop_eq_nil_of_le (by omega)
      rw [htake, hdrop, List.append_nil, h1]
      simp [List.append_assoc]
    · rw [Cursor.writeAll_pos, hp1, Cursor.writeAll_pos]
      simp [List.length_append, Nat.add_assoc]

theorem disk_read_from_record (d : List Nat) (p off c t : Nat)
    (key value junk : List Nat)
    (hk : key.length < 4294967296) (hv : value.length < 4294967296)
    (hd : d.drop off = (Header.new c t key.length value.length).buf ++ (key ++ (value ++ junk))) :
    DiskEntry.read_from ⟨d, p⟩ off =
      .ok (some { header := Header.new c t key.length value.length,
                  key := key, value := value, offset := none, file_id := none }) := by
  have hH16 : (Header.new c t key.length value.length).buf.length = 16 :=
    header_buf_length c t key.length value.length
  have f1 : (d.drop off).take 16 = (Header.new c t key.length value.length).buf := by
    rw [hd]; exact List.take_left' hH16
  have f2 : d.drop (off + 16) = key ++ (value ++ junk) := by
    rw [← List.drop_drop, hd]; exact List.drop_left' hH16
  have f3 : d.length - (off + 16) = key.length + (value.length + junk.length) := by
    rw [← List.length_drop, f2]; simp [List.length_append]
  have f4 : (d.drop (off + 16)).take key.length = key := by
    rw [f2]; exact List.take_left' rfl
  have f5 : d.drop (off + 16 + key.length) = value ++ junk := by
    rw [← List.drop_drop, f2]; exact List.drop_left' rfl
  have f5' : d.length - (off + 16 + key.length) = value.length + junk.length := by
    rw [← List.length_drop, f5]; simp [List.length_append]
  have f6 : (d.drop (off + 16 + key.length)).take value.length = value := by
    rw [f5]; exact List.take_left' rfl
  have heta : (⟨(Header.new c t key.length value.length).buf⟩ : Header)
      = Header.new c t key.length value.length := rfl
  unfold DiskEntry.read_from
  simp only [Cursor.seek, Cursor.readUpTo, Cursor.readExact, HEADER_SIZE, f1, hH16]
  norm_num
  simp only [heta, header_key_sz_new, header_value_sz_new,
    Nat.mod_eq_of_lt hk, Nat.mod_eq_of_lt hv, f3]
  rw [if_neg (by omega)]
  simp only [f4, f5', f6]
  rw [if_neg (by omega)]

theorem hint_read_from_record (d : List Nat) (p off o vsz t : Nat)
    (key junk : List Nat)
    (hk : key.length < 4294967296)
    (hd : d.drop off = (HintHeader.new o key.length vsz t).buf ++ (key ++ junk)) :
    HintEntry.read_from ⟨d, p⟩ off =
      .ok (some { header := HintHeader.new o key.length vsz t,
                  key := key, file_id := none }) := by
  have hH20 : (HintHeader.new o key.length vsz t).buf.length = 20 :=
    hint_header_buf_length o key.length vsz t
  have f1 : (d.drop off).take 20 = (HintHeader.new o key.length vsz t).buf := by
    rw [hd]; exact List.take_left' hH20
  have f2 : d.drop (off + 20) = key ++ junk := by
    rw [← List.drop_drop, hd]; exact List.drop_left' hH20
  have f3 : d.length - (off + 20) = key.length + junk.length := by
    rw [← List.length_drop, f2]; simp [List.length_append]
  have f4 : (d.drop (off + 20)).take key.length = key := by
    rw [f2]; exact List.take_left' rfl
  have heta : (⟨(HintHeader.new o key.length vsz t).buf⟩ : HintHeader)
      = HintHeader.new o key.length vsz t := rfl
  unfold HintEntry.read_from
  simp only [Cursor.seek, Cursor.readUpTo, Cursor.readExact, HINT_HEADER_SIZE, f1, hH20]
  norm_num
  simp only [heta, hint_header_key_sz_new, Nat.mod_eq_of_lt hk, f3]
  rw [if_neg (by omega)]
  simp only [f4]

/-- C1 (amended): for every key and value whose byte lengths fit in `u32`,
writing the data entry built from them with `write_to` and then reading it
back with `read_from` at the offset returned by `write_to` yields an entry
with identical key, value, and stored checksum (here: the identical
entry), for any initial stream contents and position. -/
theorem diskEntry_roundtrip (key value : List Nat) (timestamp : Nat) (s : Cursor)
    (hk : key.length < 4294967296) (hv : value.length < 4294967296) :
    DiskEntry.read_from ((DiskEntry.new key value timestamp).write_to s).2
        ((DiskEntry.new key value timestamp).write_to s).1 =
      .ok (some (DiskEntry.new key value timestamp)) := by
  have hw0 : (DiskEntry.new key value timestamp).write_to s =
      (s.pos, ((s.writeAll (Header.new (crcHash key value) timestamp
          key.length value.length).buf).writeAll key).writeAll value) := rfl
  rw [hw0, Cursor.writeAll_writeAll, Cursor.writeAll_writeAll]
  have hdrop := Cursor.writeAll_drop s
    (((Header.new (crcHash key value) timestamp key.length value.length).buf ++ key) ++ value)
  rw [List.append_assoc, List.append_assoc] at hdrop
  have hd : (s.writeAll ((Header.new (crcHash key value) timestamp
      key.length value.length).buf ++ (key ++ value))).data.drop s.pos =
      (Header.new (crcHash key value) timestamp key.length value.length).buf ++
        (key ++ (value ++
          s.data.drop (s.pos + ((Header.new (crcHash key value) timestamp
            key.length value.length).buf ++ (key ++ value)).length))) := by
    rw [hdrop]; simp [List.append_assoc]
  exact disk_read_from_record _ _ _ _ _ _ _ _ hk hv hd

theorem disk_write_to_eq (e : DiskEntry) (s : Cursor) :
    e.write_to s = (s.pos, ((s.writeAll e.header.buf).writeAll e.key).writeAll e.value) := rfl

theorem disk_new_eq (k v : List Nat) (t : Nat) :
    DiskEntry.new k v t =
      { header := Header.new (crcHash k v) t k.length v.length,
        key := k, value := v, offset := none, file_id := none } := rfl

theorem diskEntry_roundtrip_wrap_aux (K : List Nat) (hK : K.length = 4294967296) :
    DiskEntry.read_from ((DiskEntry.new K [] 0).write_to ⟨[], 0⟩).2
        ((DiskEntry.new K [] 0).write_to ⟨[], 0⟩).1 =
      .ok (some { header := Header.new (crcHash K []) 0 0 0,
                  key := [], value := [], offset := none, file_id := none }) := by
  have hbuf_eq : (Header.new (crcHash K []) 0 K.length 0).buf =
      (Header.new (crcHash K []) 0 0 0).buf := by
    rw [hK]
    simp only [Header.new, show u32ToLe 4294967296 = u32ToLe 0 from rfl]
  rw [disk_new_eq, disk_write_to_eq]
  simp only [List.length_nil]
  rw [Cursor.writeAll_writeAll, Cursor.writeAll_writeAll]
  have hd : ((Cursor.writeAll ⟨[], 0⟩
      (((Header.new (crcHash K []) 0 K.length 0).buf ++ K) ++ [])).data).drop 0 =
      (Header.new (crcHash K []) 0 ([] : List Nat).length ([] : List Nat).length).buf ++
        ([] ++ ([] ++ K)) := by
    have hwd := Cursor.writeAll_drop (⟨[], 0⟩ : Cursor)
      (((Header.new (crcHash K []) 0 K.length 0).buf ++ K) ++ [])
    have hwd' : List.drop 0 ((Cursor.writeAll ⟨[], 0⟩
        (((Header.new (crcHash K []) 0 K.length 0).buf ++ K) ++ [])).data) =
        (((Header.new (crcHash K []) 0 K.length 0).buf ++ K) ++ []) ++
          List.drop (0 + (((Header.new (crcHash K []) 0 K.length 0).buf ++ K) ++ []).length) [] :=
      hwd
    rw [hwd', List.drop_nil, List.append_nil, List.append_nil, List.nil_append, List.nil_append,
      hbuf_eq]
    rfl
  exact disk_read_from_record _ _ _ _ _ _ _ _ (by norm_num) (by norm_num) hd

/-- C1 counterexample: at a key of length `2^32` (whose length wraps to 0
in the `u32` header field) the written entry reads back with an empty key,
so the round-trip claim fails as stated for arbitrary byte sequences. -/
theorem diskEntry_roundtrip_huge_key :
    DiskEntry.read_from
        ((DiskEntry.new (List.replicate 4294967296 0) [] 0).write_to ⟨[], 0⟩).2
        ((DiskEntry.new (List.replicate 4294967296 0) [] 0).write_to ⟨[], 0⟩).1 =
      .ok (some { header := Header.new (crcHash (List.replicate 4294967296 0) []) 0 0 0,
                  key := [], value := [], offset := none, file_id := none }) ∧
    (DiskEntry.new (List.replicate 4294967296 0) [] 0).key ≠ [] := by
  refine ⟨diskEntry_roundtrip_wrap_aux _ (by rw [List.length_replicate]), ?_⟩
  intro h
  have h1 : (DiskEntry.new (List.replicate 4294967296 (0 : Nat)) [] 0).key
      = List.replicate 4294967296 (0 : Nat) := rfl
  rw [h1] at h
  have h2 := congrArg List.length h
  rw [List.length_replicate, List.length_nil] at h2
  exact absurd h2 (by norm_num)

theorem hint_write_to_eq (e : HintEntry) (s : Cursor) :
    e.write_to s = (s.pos, (s.writeAll e.header.buf).writeAll e.key) := rfl

theorem hint_new_eq (k : List Nat) (o sz t : Nat) :
    HintEntry.new k o sz t =
      { header := HintHeader.new o (k.length % 4294967296)
          (wrap32 (((sz % 4294967296 : Nat) : Int) - (HEADER_SIZE : Int) -
            ((k.length % 4294967296 : Nat) : Int))) t,
        key := k, file_id := none } := rfl

/-- C8 (amended): for every hint entry whose stored key size equals its
key length (as every entry built by the constructors from a `u32`-sized
key has), writing with `write_to` and reading back at the returned offset
preserves the header verbatim — stored offset, declared sizes, timestamp —
and the key bytes; `hint_size` equals `HINT_HEADER_SIZE + key.len`. -/
theorem hintEntry_roundtrip (o vsz t : Nat) (key : List Nat) (fid : Option Nat) (s : Cursor)
    (hk : key.length < 4294967296) :
    HintEntry.read_from
        (({ header := HintHeader.new o key.length vsz t, key := key,
            file_id := fid } : HintEntry).write_to s).2
        (({ header := HintHeader.new o key.length vsz t, key := key,
            file_id := fid } : HintEntry).write_to s).1 =
      .ok (some { header := HintHeader.new o key.length vsz t, key := key,
                  file_id := none }) ∧
    ({ header := HintHeader.new o key.length vsz t, key := key,
       file_id := fid } : HintEntry).hint_size = HINT_HEADER_SIZE + key.length := by
  constructor
  · rw [hint_write_to_eq, Cursor.writeAll_writeAll]
    have hd := Cursor.writeAll_drop s ((HintHeader.new o key.length vsz t).buf ++ key)
    rw [List.append_assoc] at hd
    exact hint_read_from_record _ _ _ _ _ _ _ _ hk hd
  · rfl

/-- C3: reading a data entry at an offset at or past the end of the
stream (zero bytes available for the header read) returns the clean
"no entry" result, not an error. -/
theorem read_from_end_of_stream (d : List Nat) (p off : Nat) (h : d.length ≤ off) :
    DiskEntry.read_from ⟨d, p⟩ off = .ok none := by
  have hnil : d.drop off = [] := List.drop_eq_nil_of_le h
  unfold DiskEntry.read_from
  simp only [Cursor.seek, Cursor.readUpTo, HEADER_SIZE, hnil, List.take_nil, List.length_nil,
    if_pos]

/-- C9: a complete well-formed record whose stored crc differs from the
checksum of its key and value is still decoded successfully by
`read_from`; the mismatch surfaces only through the boolean validity
check afterwards. -/
theorem checksum_mismatch_read_ok (c t p : Nat) (key value junk : List Nat)
    (hk : key.length < 4294967296) (hv : value.length < 4294967296) :
    DiskEntry.read_from
        ⟨(Header.new c t key.length value.length).buf ++ (key ++ (value ++ junk)), p⟩ 0 =
      .ok (some { header := Header.new c t key.length value.length, key := key,
                  value := value, offset := none, file_id := none }) ∧
    (c < 4294967296 → c ≠ crcHash key value →
      ({ header := Header.new c t key.length value.length, key := key, value := value,
         offset := none, file_id := none } : DiskEntry).is_validate = false) := by
  constructor
  · exact disk_read_from_record _ _ _ _ _ _ _ _ hk hv (by rw [List.drop_zero])
  · intro hc hne
    simp only [DiskEntry.is_validate, header_crc_new, Nat.mod_eq_of_lt hc]
    simp [hne]

/-- C10: for a key shorter than `2^32` and a total size between
`HEADER_SIZE + key.len` and `2^32`, the hint entry constructed from that
total size reports exactly that total size through `size()`. -/
theorem hintEntry_size_inverse (key : List Nat) (o sz t : Nat)
    (hk : key.length < 4294967296) (h1 : HEADER_SIZE + key.length ≤ sz)
    (h2 : sz < 4294967296) :
    (HintEntry.new key o sz t).size = sz := by
  have hvsz : wrap32 (((sz % 4294967296 : Nat) : Int) - (HEADER_SIZE : Int) -
      ((key.length % 4294967296 : Nat) : Int)) = sz - 16 - key.length := by
    unfold wrap32 HEADER_SIZE
    rw [Nat.mod_eq_of_lt h2, Nat.mod_eq_of_lt hk]
    unfold HEADER_SIZE at h1
    omega
  rw [hint_new_eq]
  simp only [HintEntry.size, hint_header_key_sz_new, hint_header_value_sz_new, hvsz]
  unfold HEADER_SIZE
  unfold HEADER_SIZE at h1
  omega

theorem hint_roundtrip_wrap_aux (K : List Nat) (hK : K.length = 4294967296) :
    HintEntry.read_from ((HintEntry.new K 0 100 0).write_to ⟨[], 0⟩).2
        ((HintEntry.new K 0 100 0).write_to ⟨[], 0⟩).1 =
      .ok (some { header := HintHeader.new 0 0 84 0, key := [], file_id := none }) := by
  have hnew : HintEntry.new K 0 100 0 =
      { header := HintHeader.new 0 0 84 0, key := K, file_id := none } := by
    rw [hint_new_eq, hK]
    rfl
  rw [hnew, hint_write_to_eq, Cursor.writeAll_writeAll]
  have hwd := Cursor.writeAll_drop (⟨[], 0⟩ : Cursor) ((HintHeader.new 0 0 84 0).buf ++ K)
  have hwd' : List.drop 0 ((Cursor.writeAll ⟨[], 0⟩
      ((HintHeader.new 0 0 84 0).buf ++ K)).data) =
      ((HintHeader.new 0 0 84 0).buf ++ K) ++
        List.drop (0 + ((HintHeader.new 0 0 84 0).buf ++ K).length) [] := hwd
  have hd : List.drop 0 ((Cursor.writeAll ⟨[], 0⟩
      ((HintHeader.new 0 0 84 0).buf ++ K)).data) =
      (HintHeader.new 0 ([] : List Nat).length 84 0).buf ++ (([] : List Nat) ++ K) := by
    rw [hwd', List.drop_nil, List.append_nil]
    rfl
  exact hint_read_from_record _ _ _ _ _ _ _ _ (by norm_num) hd

/-- C8 counterexample: a hint entry built from a key of length `2^32`
stores key size 0, so reading back after writing yields an empty key,
refuting the round-trip claim for arbitrary hint entries. -/
theorem hintEntry_roundtrip_huge_key :
    HintEntry.read_from
        ((HintEntry.new (List.replicate 4294967296 0) 0 100 0).write_to ⟨[], 0⟩).2
        ((HintEntry.new (List.replicate 4294967296 0) 0 100 0).write_to ⟨[], 0⟩).1 =
      .ok (some { header := HintHeader.new 0 0 84 0, key := [], file_id := none }) ∧
    (HintEntry.new (List.replicate 4294967296 0) 0 100 0).key ≠ [] := by
  refine ⟨hint_roundtrip_wrap_aux _ (by rw [List.length_replicate]), ?_⟩
  intro h
  have h1 : (HintEntry.new (List.replicate 4294967296 (0 : Nat)) 0 100 0).key
      = List.replicate 4294967296 (0 : Nat) := rfl
  rw [h1] at h
  have h2 := congrArg List.length h
  rw [List.length_replicate, List.length_nil] at h2
  exact absurd h2 (by norm_num)

/-- C2: with exactly one byte available at the offset (strictly between 0
and `HEADER_SIZE`), `read_from` does not fail: the single `read` call
leaves the rest of the header buffer zeroed, the declared key and value
sizes decode as 0, and a successfully decoded entry is returned. -/
theorem read_from_partial_header_succeeds :
    DiskEntry.read_from ⟨[1], 0⟩ 0 =
      .ok (some { header := ⟨[1, 0, 0, 0, 0, 0, 0, 0, 0, 0, 0, 0, 0, 0, 0, 0]⟩,
                  key := [], value := [], offset := none, file_id := none }) ∧
    0 < (1 : Nat) ∧ (1 : Nat) < HEADER_SIZE :=
  ⟨rfl, by norm_num, by norm_num [HEADER_SIZE]⟩

/-- C4: the data-entry header encodes to exactly 16 bytes with crc at
bytes 0-3, timestamp at 4-7, key size at 8-11, value size at 12-15, and
the hint header to exactly 20 bytes with offset (`u64`) at bytes 0-7, key
size at 8-11, value size at 12-15, timestamp at 16-19, all little-endian;
the accessors decode the same field values back from those byte ranges. -/
theorem header_layouts (c t k v o : Nat) (hc : c < 4294967296) (ht : t < 4294967296)
    (hk : k < 4294967296) (hv : v < 4294967296) (ho : o < 18446744073709551616) :
    (Header.new c t k v).buf.length = 16 ∧
    ((Header.new c t k v).buf.drop 0).take 4 = u32ToLe c ∧
    ((Header.new c t k v).buf.drop 4).take 4 = u32ToLe t ∧
    ((Header.new c t k v).buf.drop 8).take 4 = u32ToLe k ∧
    ((Header.new c t k v).buf.drop 12).take 4 = u32ToLe v ∧
    (Header.new c t k v).crc = c ∧
    (Header.new c t k v).timestamp = t ∧
    (Header.new c t k v).key_sz = k ∧
    (Header.new c t k v).value_sz = v ∧
    (HintHeader.new o k v t).buf.length = 20 ∧
    ((HintHeader.new o k v t).buf.drop 0).take 8 = u64ToLe o ∧
    ((HintHeader.new o k v t).buf.drop 8).take 4 = u32ToLe k ∧
    ((HintHeader.new o k v t).buf.drop 12).take 4 = u32ToLe v ∧
    ((HintHeader.new o k v t).buf.drop 16).take 4 = u32ToLe t ∧
    (HintHeader.new o k v t).offset = o ∧
    (HintHeader.new o k v t).key_sz = k ∧
    (HintHeader.new o k v t).value_sz = v ∧
    (HintHeader.new o k v t).timestamp = t := by
  refine ⟨rfl, rfl, rfl, rfl, rfl, ?_, ?_, ?_, ?_, rfl, rfl, rfl, rfl, rfl, ?_, ?_, ?_, ?_⟩
  · rw [header_crc_new]; exact Nat.mod_eq_of_lt hc
  · rw [header_timestamp_new]; exact Nat.mod_eq_of_lt ht
  · rw [header_key_sz_new]; exact Nat.mod_eq_of_lt hk
  · rw [header_value_sz_new]; exact Nat.mod_eq_of_lt hv
  · rw [hint_header_offset_new]; exact Nat.mod_eq_of_lt ho
  · rw [hint_header_key_sz_new]; exact Nat.mod_eq_of_lt hk
  · rw [hint_header_value_sz_new]; exact Nat.mod_eq_of_lt hv
  · rw [hint_header_timestamp_new]; exact Nat.mod_eq_of_lt ht

/-- C5: the validity check returns true exactly when the stored crc
equals the checksum recomputed over the current key and value; an entry
freshly built from a key/value pair validates, and replacing the value
(or the key) by bytes with a different checksum makes it return false. -/
theorem is_validate_spec :
    (∀ e : DiskEntry, e.is_validate = true ↔ e.header.crc = crcHash e.key e.value) ∧
    (∀ key value timestamp, (DiskEntry.new key value timestamp).is_validate = true) ∧
    (∀ key value timestamp value', crcHash key value' ≠ crcHash key value →
      ({ DiskEntry.new key value timestamp with value := value' }).is_validate = false) ∧
    (∀ key value timestamp key', crcHash key' value ≠ crcHash key value →
      ({ DiskEntry.new key value timestamp with key := key' }).is_validate = false) := by
  refine ⟨?_, ?_, ?_, ?_⟩
  · intro e
    simp [DiskEntry.is_validate]
  · intro k v t
    simp [DiskEntry.is_validate, disk_new_eq, header_crc_new,
      Nat.mod_eq_of_lt (crcHash_lt k v)]
  · intro k v t v' hne
    have hne' : crcHash k v ≠ crcHash k v' := fun h => hne h.symm
    simp [DiskEntry.is_validate, disk_new_eq, header_crc_new,
      Nat.mod_eq_of_lt (crcHash_lt k v), hne']
  · intro k v t k' hne
    have hne' : crcHash k v ≠ crcHash k' v := fun h => hne h.symm
    simp [DiskEntry.is_validate, disk_new_eq, header_crc_new,
      Nat.mod_eq_of_lt (crcHash_lt k v), hne']

/-- C6: constructing a hint entry with `total_entry_size < HEADER_SIZE +
key.len` (here 10 < 21) raises no precondition error: the unchecked `u32`
subtraction wraps and the stored value size becomes `2^32 - 11`. -/
theorem hintEntry_new_underflow_wraps :
    (HintEntry.new [104, 101, 108, 108, 111] 0 10 0).value_sz = 4294967285 ∧
    (10 : Nat) < HEADER_SIZE + ([104, 101, 108, 108, 111] : List Nat).length :=
  ⟨rfl, by norm_num [HEADER_SIZE]⟩

/-- C7: deriving a hint entry from a data entry with unset offset hits
the `unwrap` panic path (modelled as `none`), not a recoverable error;
with the offset set, the derivation copies the offset, the key and value
lengths as declared sizes, the timestamp, and the file id. -/
theorem hintEntry_ofDiskEntry_spec :
    HintEntry.ofDiskEntry ({ header := Header.new 0 0 1 1, key := [0], value := [1],
                             offset := none, file_id := some 3 }) = none ∧
    (∀ (e : DiskEntry) (off : Nat), e.offset = some off →
      off < 18446744073709551616 → e.key.length < 4294967296 →
      e.value.length < 4294967296 → e.timestamp < 4294967296 →
      HintEntry.ofDiskEntry e =
        some { header := HintHeader.new off e.key.length e.value.length e.timestamp,
               key := e.key, file_id := e.file_id } ∧
      (HintHeader.new off e.key.length e.value.length e.timestamp).offset = off ∧
      (HintHeader.new off e.key.length e.value.length e.timestamp).key_sz = e.key.length ∧
      (HintHeader.new off e.key.length e.value.length e.timestamp).value_sz = e.value.length ∧
      (HintHeader.new off e.key.length e.value.length e.timestamp).timestamp = e.timestamp) := by
  constructor
  · rfl
  · intro e off hoff ho hk hv ht
    refine ⟨?_, ?_, ?_, ?_, ?_⟩
    · unfold HintEntry.ofDiskEntry
      rw [hoff]
    · rw [hint_header_offset_new]; exact Nat.mod_eq_of_lt ho
    · rw [hint_header_key_sz_new]; exact Nat.mod_eq_of_lt hk
    · rw [hint_header_value_sz_new]; exact Nat.mod_eq_of_lt hv
    · rw [hint_header_timestamp_new]; exact Nat.mod_eq_of_lt ht

theorem diskEntry_roundtrip_witness :
    ([104, 101, 108, 108, 111] : List Nat).length < 4294967296 ∧
    ([119, 111, 114, 108, 100] : List Nat).length < 4294967296 ∧
    DiskEntry.read_from
        ((DiskEntry.new [104, 101, 108, 108, 111] [119, 111, 114, 108, 100] 7).write_to
          ⟨[], 0⟩).2
        ((DiskEntry.new [104, 101, 108, 108, 111] [119, 111, 114, 108, 100] 7).write_to
          ⟨[], 0⟩).1 =
      .ok (some (DiskEntry.new [104, 101, 108, 108, 111] [119, 111, 114, 108, 100] 7)) :=
  ⟨by decide, by decide,
    diskEntry_roundtrip [104, 101, 108, 108, 111] [119, 111, 114, 108, 100] 7 ⟨[], 0⟩
      (by decide) (by decide)⟩

theorem read_from_end_of_stream_witness :
    ([1, 2, 3] : List Nat).length ≤ 3 ∧ DiskEntry.read_from ⟨[1, 2, 3], 0⟩ 3 = .ok none :=
  ⟨by decide, read_from_end_of_stream [1, 2, 3] 0 3 (by decide)⟩

theorem header_layouts_witness :
    (1 : Nat) < 4294967296 ∧ (2 : Nat) < 4294967296 ∧ (3 : Nat) < 4294967296 ∧
    (4 : Nat) < 4294967296 ∧ (5 : Nat) < 18446744073709551616 ∧
    ((Header.new 1 2 3 4).buf.length = 16 ∧
     ((Header.new 1 2 3 4).buf.drop 0).take 4 = u32ToLe 1 ∧
     ((Header.new 1 2 3 4).buf.drop 4).take 4 = u32ToLe 2 ∧
     ((Header.new 1 2 3 4).buf.drop 8).take 4 = u32ToLe 3 ∧
     ((Header.new 1 2 3 4).buf.drop 12).take 4 = u32ToLe 4 ∧
     (Header.new 1 2 3 4).crc = 1 ∧
     (Header.new 1 2 3 4).timestamp = 2 ∧
     (Header.new 1 2 3 4).key_sz = 3 ∧
     (Header.new 1 2 3 4).value_sz = 4 ∧
     (HintHeader.new 5 3 4 2).buf.length = 20 ∧
     ((HintHeader.new 5 3 4 2).buf.drop 0).take 8 = u64ToLe 5 ∧
     ((HintHeader.new 5 3 4 2).buf.drop 8).take 4 = u32ToLe 3 ∧
     ((HintHeader.new 5 3 4 2).buf.drop 12).take 4 = u32ToLe 4 ∧
     ((HintHeader.new 5 3 4 2).buf.drop 16).take 4 = u32ToLe 2 ∧
     (HintHeader.new 5 3 4 2).offset = 5 ∧
     (HintHeader.new 5 3 4 2).key_sz = 3 ∧
     (HintHeader.new 5 3 4 2).value_sz = 4 ∧
     (HintHeader.new 5 3 4 2).timestamp = 2) :=
  ⟨by decide, by decide, by decide, by decide, by decide,
    header_layouts 1 2 3 4 5 (by decide) (by decide) (by decide) (by decide) (by decide)⟩

theorem is_validate_spec_witness :
    crcHash [104, 101, 108, 108, 111] [104, 101, 108, 108, 111] ≠
      crcHash [104, 101, 108, 108, 111] [119, 111, 114, 108, 100] ∧
    (DiskEntry.new [104, 101, 108, 108, 111] [119, 111, 114, 108, 100] 7).is_validate
      = true ∧
    ({ DiskEntry.new [104, 101, 108, 108, 111] [119, 111, 114, 108, 100] 7 with
       value := [104, 101, 108, 108, 111] }).is_validate = false :=
  ⟨by decide,
    is_validate_spec.2.1 [104, 101, 108, 108, 111] [119, 111, 114, 108, 100] 7,
    is_validate_spec.2.2.1 [104, 101, 108, 108, 111] [119, 111, 114, 108, 100] 7
      [104, 101, 108, 108, 111] (by decide)⟩

theorem hintEntry_roundtrip_witness :
    ([104, 101, 108, 108, 111] : List Nat).length < 4294967296 ∧
    (HintEntry.read_from
        (({ header := HintHeader.new 9 ([104, 101, 108, 108, 111] : List Nat).length 79 3,
            key := [104, 101, 108, 108, 111],
            file_id := some 2 } : HintEntry).write_to ⟨[], 0⟩).2
        (({ header := HintHeader.new 9 ([104, 101, 108, 108, 111] : List Nat).length 79 3,
            key := [104, 101, 108, 108, 111],
            file_id := some 2 } : HintEntry).write_to ⟨[], 0⟩).1 =
      .ok (some { header := HintHeader.new 9 ([104, 101, 108, 108, 111] : List Nat).length 79 3,
                  key := [104, 101, 108, 108, 111], file_id := none }) ∧
     ({ header := HintHeader.new 9 ([104, 101, 108, 108, 111] : List Nat).length 79 3,
        key := [104, 101, 108, 108, 111],
        file_id := some 2 } : HintEntry).hint_size = HINT_HEADER_SIZE +
          ([104, 101, 108, 108, 111] : List Nat).length) :=
  ⟨by decide,
    hintEntry_roundtrip 9 79 3 [104, 101, 108, 108, 111] (some 2) ⟨[], 0⟩ (by decide)⟩

theorem checksum_mismatch_read_ok_witness :
    ([104, 101, 108, 108, 111] : List Nat).length < 4294967296 ∧
    ([119, 111, 114, 108, 100] : List Nat).length < 4294967296 ∧
    (0 : Nat) < 4294967296 ∧
    (0 : Nat) ≠ crcHash [104, 101, 108, 108, 111] [119, 111, 114, 108, 100] ∧
    DiskEntry.read_from
        ⟨(Header.new 0 0 ([104, 101, 108, 108, 111] : List Nat).length
            ([119, 111, 114, 108, 100] : List Nat).length).buf ++
          ([104, 101, 108, 108, 111] ++ ([119, 111, 114, 108, 100] ++ [])), 0⟩ 0 =
      .ok (some { header := Header.new 0 0 ([104, 101, 108, 108, 111] : List Nat).length
                    ([119, 111, 114, 108, 100] : List Nat).length,
                  key := [104, 101, 108, 108, 111], value := [119, 111, 114, 108, 100],
                  offset := none, file_id := none }) ∧
    ({ header := Header.new 0 0 ([104, 101, 108, 108, 111] : List Nat).length
         ([119, 111, 114, 108, 100] : List Nat).length,
       key := [104, 101, 108, 108, 111], value := [119, 111, 114, 108, 100],
       offset := none, file_id := none } : DiskEntry).is_validate = false :=
  ⟨by decide, by decide, by decide, by decide,
    (checksum_mismatch_read_ok 0 0 0 [104, 101, 108, 108, 111] [119, 111, 114, 108, 100] []
      (by decide) (by decide)).1,
    (checksum_mismatch_read_ok 0 0 0 [104, 101, 108, 108, 111] [119, 111, 114, 108, 100] []
      (by decide) (by decide)).2 (by decide) (by decide)⟩

theorem hintEntry_size_inverse_witness :
    ([104, 101, 108, 108, 111] : List Nat).length < 4294967296 ∧
    HEADER_SIZE + ([104, 101, 108, 108, 111] : List Nat).length ≤ 100 ∧
    (100 : Nat) < 4294967296 ∧
    (HintEntry.new [104, 101, 108, 108, 111] 0 100 0).size = 100 :=
  ⟨by decide, by decide, by decide,
    hintEntry_size_inverse [104, 101, 108, 108, 111] 0 100 0 (by decide) (by decide)
      (by decide)⟩

theorem hintEntry_ofDiskEntry_witness :
    sampleEntry.offset = some 42 ∧ (42 : Nat) < 18446744073709551616 ∧
    sampleEntry.key.length < 4294967296 ∧ sampleEntry.value.length < 4294967296 ∧
    sampleEntry.timestamp < 4294967296 ∧
    (HintEntry.ofDiskEntry sampleEntry =
      some { header := HintHeader.new 42 sampleEntry.key.length sampleEntry.value.length
               sampleEntry.timestamp,
             key := sampleEntry.key, file_id := sampleEntry.file_id } ∧
     (HintHeader.new 42 sampleEntry.key.length sampleEntry.value.length
        sampleEntry.timestamp).offset = 42 ∧
     (HintHeader.new 42 sampleEntry.key.length sampleEntry.value.length
        sampleEntry.timestamp).key_sz = sampleEntry.key.length ∧
     (HintHeader.new 42 sampleEntry.key.length sampleEntry.value.length
        sampleEntry.timestamp).value_sz = sampleEntry.value.length ∧
     (HintHeader.new 42 sampleEntry.key.length sampleEntry.value.length
        sampleEntry.timestamp).timestamp = sampleEntry.timestamp) :=
  ⟨rfl, by decide, by decide, by decide, by decide,
    hintEntry_ofDiskEntry_spec.2 sampleEntry 42 rfl (by decide) (by decide) (by decide)
      (by decide)⟩
